import Mathlib

/- Formal model of the user-management layer: the validation schemas of
   app/schemas/user_schemas.py and the UserService data-access methods of
   app/services/user_service.py, with the persistence session modelled as
   an explicit list of stored users. -/

namespace UserApp

/-- Modelled from the spec: the role enum of the User entity
    (app/models/user_model.py is not among the sources; the spec lists a
    fixed set including USER/AUTHENTICATED/ADMIN-like values). -/
inductive UserRole
  | USER
  | AUTHENTICATED
  | ADMIN
deriving DecidableEq, Repr

/-- Python values carried by schema fields, with Python truthiness. -/
inductive PyVal
  | vnone
  | vstr (s : String)
  | vbool (b : Bool)
  | vrole (r : UserRole)
deriving DecidableEq, Repr

/-- Python truthiness: None and the empty string are falsy, a bool is its
    own truth value, an enum member is truthy. -/
def PyVal.truthy : PyVal → Bool
  | .vnone => false
  | .vstr s => s != ""
  | .vbool b => b
  | .vrole _ => true

def optToVal : Option String → PyVal
  | none => .vnone
  | some s => .vstr s

def PyVal.asStr : PyVal → String
  | .vstr s => s
  | _ => ""

def PyVal.asOptStr : PyVal → Option String
  | .vnone => none
  | .vstr s => some s
  | .vbool _ => none
  | .vrole _ => none

/-- The character class of the Python regex escape for whitespace on str
    input (ASCII whitespace plus the unicode space separators). -/
def isPySpace (c : Char) : Bool :=
  c == ' ' || c == '\t' || c == '\n' || c == '\r' || c == '\x0b' || c == '\x0c' ||
  c == '\x1c' || c == '\x1d' || c == '\x1e' || c == '\x1f' || c == '\x85' || c == '\xa0' ||
  c == ' ' || (' ' ≤ c && c ≤ ' ') || c == ' ' || c == ' ' ||
  c == ' ' || c == ' ' || c == '　'

/-- Abstract syntax for the fragment of Python regular expressions used by
    the URL pattern of user_schemas.py: literal characters, character
    classes, option, Kleene star, sequencing and the dollar anchor. -/
inductive Rx
  | lit (c : Char)
  | cls (p : Char → Bool)
  | opt (r : Rx)
  | star (r : Rx)
  | seq (a b : Rx)
  | eol

/-- Matching semantics following re.match: RxM r s t holds when r matches a
    prefix of s leaving the suffix t. The dollar anchor consumes nothing and
    holds at the end of the input or just before a single final newline. -/
inductive RxM : Rx → List Char → List Char → Prop
  | lit (c : Char) (t : List Char) : RxM (.lit c) (c :: t) t
  | cls {p : Char → Bool} (c : Char) (t : List Char) :
      p c = true → RxM (.cls p) (c :: t) t
  | optNone (r : Rx) (s : List Char) : RxM (.opt r) s s
  | optSome {r : Rx} {s t : List Char} : RxM r s t → RxM (.opt r) s t
  | starNil (r : Rx) (s : List Char) : RxM (.star r) s s
  | starCons {r : Rx} {s t u : List Char} :
      RxM r s t → RxM (.star r) t u → RxM (.star r) s u
  | seqM {a b : Rx} {s t u : List Char} :
      RxM a s t → RxM b t u → RxM (.seq a b) s u
  | eolEnd : RxM .eol [] []
  | eolNl : RxM .eol ['\n'] ['\n']

/-- Character class of the bracket expression excluding whitespace and the
    five special characters, first after the scheme. -/
def urlHeadClass (c : Char) : Bool :=
  !(isPySpace c) && c != '/' && c != '$' && c != '.' && c != '?' && c != '#'

/-- Character class of the regex dot: any character except newline. -/
def dotClass (c : Char) : Bool := c != '\n'

/-- Character class of the bracket expression excluding whitespace. -/
def nonSpaceClass (c : Char) : Bool := !(isPySpace c)

/-- The URL pattern from validate_url as an Rx term. The caret contributes
    nothing under re.match, which already anchors at the start; the escaped
    slashes are plain slashes. -/
def urlRx : Rx :=
  .seq (.lit 'h') (.seq (.lit 't') (.seq (.lit 't') (.seq (.lit 'p')
    (.seq (.opt (.lit 's')) (.seq (.lit ':') (.seq (.lit '/') (.seq (.lit '/')
      (.seq (.cls urlHeadClass) (.seq (.cls dotClass)
        (.seq (.star (.cls nonSpaceClass)) .eol))))))))))

/-- The success condition of re.match: the pattern matches some prefix. -/
def reMatches (r : Rx) (s : String) : Prop := ∃ t, RxM r s.data t

/-- Decision for the star-then-anchor tail: either every remaining character
    is non-whitespace, or all but a single final newline are. -/
def urlTailOk (t : List Char) : Bool :=
  t.all nonSpaceClass || (t.getLast? == some '\n' && t.dropLast.all nonSpaceClass)

/-- Decision for the part of the pattern after the scheme and slashes. -/
def urlBodyOk : List Char → Bool
  | c1 :: c2 :: t => urlHeadClass c1 && dotClass c2 && urlTailOk t
  | _ => false

/-- Executable decision for re.match against the URL pattern, over the
    character list of the input. -/
def urlMatchChars : List Char → Bool
  | 'h' :: 't' :: 't' :: 'p' :: rest =>
    (match rest with
     | 's' :: ':' :: '/' :: '/' :: r => urlBodyOk r
     | ':' :: '/' :: '/' :: r => urlBodyOk r
     | _ => false)
  | _ => false

/-- Executable decision procedure for re.match against the URL pattern. -/
def urlMatch (s : String) : Bool := urlMatchChars s.data

/-- validate_url from user_schemas.py: a missing URL passes through
    unchanged, otherwise the value must match the URL pattern or a
    ValueError with message Invalid URL format is raised, which pydantic
    surfaces as a validation error. -/
def validate_url (url : Option String) : Except String (Option String) :=
  match url with
  | none => .ok none
  | some u =>
    if urlMatch u then .ok (some u) else .error "Invalid URL format"

/-- The declared field names of UserBase, in declaration order. -/
def userBaseFieldNames : List String :=
  ["email", "nickname", "first_name", "last_name", "bio",
   "profile_picture_url", "linkedin_profile_url", "github_profile_url", "role"]

/-- UserBase from user_schemas.py: required email and role, the rest
    optional. EmailStr validation and the nickname pattern checks happen in
    the pydantic layer before an instance exists; an instance carries the
    validated values. -/
structure UserBase where
  email : String
  nickname : Option String
  first_name : Option String
  last_name : Option String
  bio : Option String
  profile_picture_url : Option String
  linkedin_profile_url : Option String
  github_profile_url : Option String
  role : UserRole
deriving DecidableEq, Repr

/-- UserCreate from user_schemas.py: UserBase plus a required plaintext
    password. -/
structure UserCreate extends UserBase where
  password : String
deriving DecidableEq, Repr

/-- Python attribute access on a UserCreate instance: each declared field
    returns its value, any other name raises AttributeError, which is how
    pydantic models answer attribute reads for undeclared names. -/
def UserCreate.getattr (u : UserCreate) : String → Except String PyVal
  | "email" => .ok (.vstr u.email)
  | "nickname" => .ok (optToVal u.nickname)
  | "first_name" => .ok (optToVal u.first_name)
  | "last_name" => .ok (optToVal u.last_name)
  | "bio" => .ok (optToVal u.bio)
  | "profile_picture_url" => .ok (optToVal u.profile_picture_url)
  | "linkedin_profile_url" => .ok (optToVal u.linkedin_profile_url)
  | "github_profile_url" => .ok (optToVal u.github_profile_url)
  | "role" => .ok (.vrole u.role)
  | "password" => .ok (.vstr u.password)
  | n => .error ("AttributeError: " ++ n)

/-- The first UserUpdate definition of user_schemas.py: every UserBase
    field made optional plus an optional role string. It is shadowed by the
    second definition below before the name is ever consumed. -/
structure UserUpdateV1 where
  email : Option String
  nickname : Option String
  first_name : Option String
  last_name : Option String
  bio : Option String
  profile_picture_url : Option String
  linkedin_profile_url : Option String
  github_profile_url : Option String
  role : Option String
deriving DecidableEq, Repr

/-- check_at_least_one_value, the pre root validator of the first
    UserUpdate definition: values is the raw field dict and any() tests
    Python truthiness of each value. -/
def check_at_least_one_value (values : List (String × PyVal)) :
    Except String (List (String × PyVal)) :=
  if values.any (fun kv => kv.2.truthy) then .ok values
  else .error "At least one field must be provided for update"

/-- The second UserUpdate definition of user_schemas.py: a narrower field
    set, all optional. HttpUrl values are carried as their string form. -/
structure UserUpdateV2 where
  email : Option String
  name : Option String
  bio : Option String
  location : Option String
  password : Option String
  linkedin_profile_url : Option String
  github_profile_url : Option String
deriving DecidableEq, Repr

/-- The name UserUpdate of the module is bound to the second definition,
    which shadows the first at the type-binding level. -/
abbrev UserUpdate := UserUpdateV2

/-- Python attribute access on an instance of the effective UserUpdate
    type: declared fields return their value, any other name raises
    AttributeError. -/
def UserUpdateV2.getattr (u : UserUpdateV2) : String → Except String PyVal
  | "email" => .ok (optToVal u.email)
  | "name" => .ok (optToVal u.name)
  | "bio" => .ok (optToVal u.bio)
  | "location" => .ok (optToVal u.location)
  | "password" => .ok (optToVal u.password)
  | "linkedin_profile_url" => .ok (optToVal u.linkedin_profile_url)
  | "github_profile_url" => .ok (optToVal u.github_profile_url)
  | n => .error ("AttributeError: " ++ n)

/-- Python str.strip: remove whitespace from both ends. -/
def pyStrip (s : String) : String :=
  ⟨((s.data.dropWhile isPySpace).reverse.dropWhile isPySpace).reverse⟩

def maxLenOk (n : Nat) : Option String → Bool
  | none => true
  | some s => s.length ≤ n

def minLenOk (n : Nat) : Option String → Bool
  | none => true
  | some s => n ≤ s.length

def checkOpt (f : String → Bool) : Option String → Bool
  | none => true
  | some s => f s

/-- The pydantic construction pipeline of the second UserUpdate definition:
    strip_whitespace runs pre and always on name, bio and location; the
    EmailStr and HttpUrl validators are pydantic built-ins and enter as
    parameters; length constraints are checked only on provided values. -/
def UserUpdateV2.validate (emailOk httpUrlOk : String → Bool)
    (email name bio location password linkedin github : Option String) :
    Except String UserUpdateV2 :=
  let name := name.map pyStrip
  let bio := bio.map pyStrip
  let location := location.map pyStrip
  if !(checkOpt emailOk email) then .error "value is not a valid email address"
  else if !(maxLenOk 50 name) then .error "ensure this value has at most 50 characters"
  else if !(maxLenOk 255 bio) then .error "ensure this value has at most 255 characters"
  else if !(maxLenOk 100 location) then .error "ensure this value has at most 100 characters"
  else if !(minLenOk 8 password) then .error "ensure this value has at least 8 characters"
  else if !(checkOpt httpUrlOk linkedin) then .error "invalid or missing URL scheme"
  else if !(checkOpt httpUrlOk github) then .error "invalid or missing URL scheme"
  else .ok ⟨email, name, bio, location, password, linkedin, github⟩

/-- UserResponse from user_schemas.py: UserBase plus id, is_professional
    (defaulting to false), created_at and updated_at. The UUID id and the
    datetime stamps are carried as their string forms. -/
structure UserResponse extends UserBase where
  id : String
  is_professional : Option Bool
  created_at : String
  updated_at : String
deriving DecidableEq, Repr

/-- Pydantic serialization of a UserResponse: one key per declared field,
    parent fields first, in declaration order. -/
def UserResponse.dict (r : UserResponse) : List (String × PyVal) :=
  [("email", .vstr r.email), ("nickname", optToVal r.nickname),
   ("first_name", optToVal r.first_name), ("last_name", optToVal r.last_name),
   ("bio", optToVal r.bio), ("profile_picture_url", optToVal r.profile_picture_url),
   ("linkedin_profile_url", optToVal r.linkedin_profile_url),
   ("github_profile_url", optToVal r.github_profile_url), ("role", .vrole r.role),
   ("id", .vstr r.id),
   ("is_professional", match r.is_professional with | none => PyVal.vnone | some b => PyVal.vbool b),
   ("created_at", .vstr r.created_at), ("updated_at", .vstr r.updated_at)]

/-- Modelled from the spec: the persisted User entity
    (app/models/user_model.py is not among the sources). Field names follow
    their use in user_service.py; id stands for the primary key. -/
structure User where
  id : Nat
  email : String
  hashed_password : String
  github_link : Option String
  linkedin_link : Option String
  profile_photo_url : Option String
  role : UserRole
  verification_token : String
  nickname : String
  is_pro : Bool
deriving DecidableEq, Repr

/-- The persistence session: the stored users plus a flag recording that
    rollback was called. -/
structure Session where
  users : List User
  rolledBack : Bool
deriving DecidableEq, Repr

/-- Outcome of one database round trip: either the query executes, or the
    driver raises SQLAlchemyError with a message. -/
inductive DbOutcome
  | ok
  | err (msg : String)
deriving DecidableEq, Repr

/-- UserService._execute_query followed by _fetch_user with a filter_by
    predicate: on success the statement commits and the result is the first
    stored user satisfying the filter; on SQLAlchemyError the error is
    logged, the session rolled back and None returned. -/
def fetch_user (s : Session) (o : DbOutcome) (p : User → Bool) :
    Session × Option User :=
  match o with
  | .err _ => ({ s with rolledBack := true }, none)
  | .ok => (s, s.users.find? p)

/-- UserService.get_by_id: _fetch_user with the primary-key filter. -/
def get_by_id (s : Session) (o : DbOutcome) (user_id : Nat) :
    Session × Option User :=
  fetch_user s o (fun u => u.id == user_id)

/-- UserService.create_user. hash_password, generate_verification_token and
    generate_nickname are external collaborators from app/utils and enter
    as parameters, as does the primary key the insert would assign. Every
    attribute read on user_data goes through UserCreate.getattr, because the
    source reads names (github_link, linkedin_link, profile_photo_url) that
    the UserCreate schema does not declare; reads are sequenced as the
    source evaluates them. An AttributeError is caught by the blanket
    except handler, which logs and returns None; on success the entity is
    added, committed and refreshed. -/
def create_user (hash_pw : String → String) (token nick : String)
    (next_id : Nat) (s : Session) (user_data : UserCreate) :
    Session × Option User :=
  match (do
    let pw ← user_data.getattr "password"
    let hashed := hash_pw pw.asStr
    let em ← user_data.getattr "email"
    let gl ← user_data.getattr "github_link"
    let ll ← user_data.getattr "linkedin_link"
    let pp ← user_data.getattr "profile_photo_url"
    pure (User.mk next_id em.asStr hashed gl.asOptStr ll.asOptStr pp.asOptStr
      UserRole.USER token nick false) : Except String User) with
  | .ok u => ({ s with users := s.users ++ [u] }, some u)
  | .error _ => (s, none)

/-- Replace the first stored element satisfying p: the in-memory mutation of
    the fetched entity, made persistent by commit. -/
def replaceFirst (p : User → Bool) (f : User → User) : List User → List User
  | [] => []
  | u :: rest => if p u then f u :: rest else u :: replaceFirst p f rest

/-- Python or with the update value on the left and the stored value on the
    right: the first operand when truthy, the second otherwise. -/
def pyOr (v : PyVal) (cur : Option String) : Option String :=
  if v.truthy then v.asOptStr else cur

/-- UserService.update_user_profile: fetch by id; if absent, log and return
    None. If present, assign github_link, linkedin_link and
    profile_photo_url in turn, each via the Python or of the update value
    and the stored value; the reads on user_update go through getattr on
    the effective UserUpdate type and are sequenced as the source evaluates
    them. An AttributeError is caught by the blanket except handler and
    None returned; on success the mutation commits and the refreshed entity
    is returned. -/
def update_user_profile (s : Session) (o : DbOutcome) (user_id : Nat)
    (user_update : UserUpdate) : Session × Option User :=
  let fetched := get_by_id s o user_id
  match fetched.2 with
  | none => (fetched.1, none)
  | some db_user =>
    match (do
      let gl ← user_update.getattr "github_link"
      let u1 := { db_user with github_link := pyOr gl db_user.github_link }
      let ll ← user_update.getattr "linkedin_link"
      let u2 := { u1 with linkedin_link := pyOr ll u1.linkedin_link }
      let pp ← user_update.getattr "profile_photo_url"
      pure { u2 with profile_photo_url := pyOr pp u2.profile_photo_url } :
      Except String User) with
    | .error _ => (fetched.1, none)
    | .ok u =>
      ({ fetched.1 with
          users := replaceFirst (fun w => w.id == user_id) (fun _ => u) fetched.1.users },
       some u)

/-- UserService.upgrade_user_to_pro: fetch by id; if absent, log and return
    None; if present, set is_pro true, commit and return the refreshed
    entity. -/
def upgrade_user_to_pro (s : Session) (o : DbOutcome) (user_id : Nat) :
    Session × Option User :=
  let fetched := get_by_id s o user_id
  match fetched.2 with
  | none => (fetched.1, none)
  | some db_user =>
    let u := { db_user with is_pro := true }
    ({ fetched.1 with
        users := replaceFirst (fun w => w.id == user_id) (fun _ => u) fetched.1.users },
     some u)

/- Inversion and characterization lemmas for the regex semantics. -/

theorem rxm_lit_iff {c : Char} {s t : List Char} :
    RxM (.lit c) s t ↔ s = c :: t := by
  constructor
  · intro h; cases h; rfl
  · rintro rfl; exact .lit c t

theorem rxm_cls_iff {p : Char → Bool} {s t : List Char} :
    RxM (.cls p) s t ↔ ∃ c, s = c :: t ∧ p c = true := by
  constructor
  · intro h
    cases h with
    | cls c t hc => exact ⟨c, rfl, hc⟩
  · rintro ⟨c, rfl, hc⟩; exact .cls c t hc

theorem rxm_seq_iff {a b : Rx} {s u : List Char} :
    RxM (.seq a b) s u ↔ ∃ t, RxM a s t ∧ RxM b t u := by
  constructor
  · intro h
    cases h with
    | seqM h1 h2 => exact ⟨_, h1, h2⟩
  · rintro ⟨t, h1, h2⟩; exact .seqM h1 h2

theorem rxm_opt_iff {r : Rx} {s t : List Char} :
    RxM (.opt r) s t ↔ t = s ∨ RxM r s t := by
  constructor
  · intro h
    cases h with
    | optNone => exact .inl rfl
    | optSome h => exact .inr h
  · rintro (rfl | h)
    · exact .optNone _ _
    · exact .optSome h

theorem rxm_eol_iff {s t : List Char} :
    RxM .eol s t ↔ t = s ∧ (s = [] ∨ s = ['\n']) := by
  constructor
  · intro h
    cases h with
    | eolEnd => exact ⟨rfl, .inl rfl⟩
    | eolNl => exact ⟨rfl, .inr rfl⟩
  · rintro ⟨rfl, (rfl | rfl)⟩
    · exact .eolEnd
    · exact .eolNl

theorem rxm_star_cls_forward {p : Char → Bool} {r0 : Rx} {s t : List Char}
    (h : RxM r0 s t) (hr : r0 = .star (.cls p)) :
    ∃ l, s = l ++ t ∧ ∀ c ∈ l, p c = true := by
  revert hr
  induction h <;> intro hr
  case starNil r s => exact ⟨[], rfl, by simp⟩
  case starCons r s t u h1 h2 ih1 ih2 =>
    obtain rfl : r = .cls p := by injection hr
    obtain ⟨c, rfl, hc⟩ := rxm_cls_iff.mp h1
    obtain ⟨l, rfl, hl⟩ := ih2 hr
    refine ⟨c :: l, rfl, ?_⟩
    intro x hx
    rcases List.mem_cons.mp hx with rfl | hx
    · exact hc
    · exact hl x hx
  all_goals exact Rx.noConfusion hr

theorem rxm_star_cls_of_all {p : Char → Bool} (l t : List Char)
    (hl : ∀ c ∈ l, p c = true) :
    RxM (.star (.cls p)) (l ++ t) t := by
  induction l with
  | nil => exact .starNil _ t
  | cons c l ih =>
    exact .starCons (.cls c (l ++ t) (hl c (by simp)))
      (ih (fun x hx => hl x (by simp [hx])))

theorem rxm_star_cls_iff {p : Char → Bool} {s t : List Char} :
    RxM (.star (.cls p)) s t ↔ ∃ l, s = l ++ t ∧ ∀ c ∈ l, p c = true := by
  constructor
  · intro h; exact rxm_star_cls_forward h rfl
  · rintro ⟨l, rfl, hl⟩; exact rxm_star_cls_of_all l t hl

theorem tail_rx_iff (l : List Char) :
    (∃ t, RxM (.seq (.star (.cls nonSpaceClass)) .eol) l t) ↔ urlTailOk l = true := by
  constructor
  · rintro ⟨t, h⟩
    obtain ⟨m, hstar, heol⟩ := rxm_seq_iff.mp h
    obtain ⟨rfl, hm⟩ := rxm_eol_iff.mp heol
    obtain ⟨pre, rfl, hpre⟩ := rxm_star_cls_iff.mp hstar
    rcases hm with rfl | rfl
    · simp only [urlTailOk, Bool.or_eq_true]
      exact Or.inl (by simpa [List.all_eq_true] using hpre)
    · simp only [urlTailOk, Bool.or_eq_true, Bool.and_eq_true]
      refine Or.inr ⟨?_, ?_⟩
      · simp [List.getLast?_concat]
      · simpa [List.dropLast_concat, List.all_eq_true] using hpre
  · intro h
    simp only [urlTailOk, Bool.or_eq_true, Bool.and_eq_true] at h
    rcases h with h | ⟨hlast, hinit⟩
    · have := rxm_star_cls_of_all (p := nonSpaceClass) l []
        (by simpa [List.all_eq_true] using h)
      rw [List.append_nil] at this
      exact ⟨[], .seqM this .eolEnd⟩
    · have hl : l.getLast? = some '\n' := by simpa using hlast
      obtain ⟨l2, rfl⟩ := List.getLast?_eq_some_iff.mp hl
      have := rxm_star_cls_of_all (p := nonSpaceClass) l2 ['\n']
        (by simpa [List.dropLast_concat, List.all_eq_true] using hinit)
      exact ⟨['\n'], .seqM this .eolNl⟩

theorem body_rx_iff (l : List Char) :
    (∃ t, RxM (.seq (.cls urlHeadClass) (.seq (.cls dotClass)
      (.seq (.star (.cls nonSpaceClass)) .eol))) l t) ↔ urlBodyOk l = true := by
  constructor
  · rintro ⟨t, h⟩
    obtain ⟨m1, h1, h2⟩ := rxm_seq_iff.mp h
    obtain ⟨c1, he1, hc1⟩ := rxm_cls_iff.mp h1
    obtain ⟨m2, h3, h4⟩ := rxm_seq_iff.mp h2
    obtain ⟨c2, he2, hc2⟩ := rxm_cls_iff.mp h3
    have ht : urlTailOk m2 = true := (tail_rx_iff m2).mp ⟨t, h4⟩
    subst he1
    subst he2
    simp [urlBodyOk, hc1, hc2, ht]
  · intro h
    match l with
    | [] => exact absurd h (by simp [urlBodyOk])
    | [c1] => exact absurd h (by simp [urlBodyOk])
    | c1 :: c2 :: t =>
      simp only [urlBodyOk, Bool.and_eq_true] at h
      obtain ⟨⟨hc1, hc2⟩, ht⟩ := h
      obtain ⟨t2, htail⟩ := (tail_rx_iff t).mpr ht
      exact ⟨t2, .seqM (.cls c1 _ hc1) (.seqM (.cls c2 _ hc2) htail)⟩

theorem rxm_seq_lit {c : Char} {r : Rx} {s t : List Char} (h : RxM r s t) :
    RxM (.seq (.lit c) r) (c :: s) t :=
  .seqM (.lit c s) h

theorem urlMatchChars_iff (cs : List Char) :
    urlMatchChars cs = true ↔ ∃ t, RxM urlRx cs t := by
  constructor
  · intro h
    rw [urlMatchChars.eq_def] at h
    split at h
    · split at h
      · obtain ⟨t, hb⟩ := (body_rx_iff _).mpr h
        exact ⟨t, rxm_seq_lit (rxm_seq_lit (rxm_seq_lit (rxm_seq_lit
          (.seqM (.optSome (.lit 's' _)) (rxm_seq_lit (rxm_seq_lit
            (rxm_seq_lit hb)))))))⟩
      · obtain ⟨t, hb⟩ := (body_rx_iff _).mpr h
        exact ⟨t, rxm_seq_lit (rxm_seq_lit (rxm_seq_lit (rxm_seq_lit
          (.seqM (.optNone _ _) (rxm_seq_lit (rxm_seq_lit
            (rxm_seq_lit hb)))))))⟩
      · exact absurd h (by simp)
    · exact absurd h (by simp)
  · rintro ⟨t, h⟩
    obtain ⟨m1, ha1, hb1⟩ := rxm_seq_iff.mp h
    obtain ⟨m2, ha2, hb2⟩ := rxm_seq_iff.mp hb1
    obtain ⟨m3, ha3, hb3⟩ := rxm_seq_iff.mp hb2
    obtain ⟨m4, ha4, hb4⟩ := rxm_seq_iff.mp hb3
    obtain ⟨m5, hopt, hb5⟩ := rxm_seq_iff.mp hb4
    obtain ⟨m6, ha6, hb6⟩ := rxm_seq_iff.mp hb5
    obtain ⟨m7, ha7, hb7⟩ := rxm_seq_iff.mp hb6
    obtain ⟨m8, ha8, hb8⟩ := rxm_seq_iff.mp hb7
    rw [rxm_lit_iff] at ha1 ha2 ha3 ha4 ha6 ha7 ha8
    have hbody : urlBodyOk m8 = true := (body_rx_iff m8).mp ⟨t, hb8⟩
    rcases rxm_opt_iff.mp hopt with he | hs
    · subst ha1 ha2 ha3 ha4 he ha6 ha7 ha8
      simpa [urlMatchChars] using hbody
    · rw [rxm_lit_iff] at hs
      subst ha1 ha2 ha3 ha4 hs ha6 ha7 ha8
      simpa [urlMatchChars] using hbody

theorem urlMatch_iff_reMatches (s : String) :
    urlMatch s = true ↔ reMatches urlRx s :=
  urlMatchChars_iff s.data

/- Demonstration data used by concrete evaluations. -/

/-- A stored user used by the concrete evaluations. -/
def demoUser : User :=
  ⟨1, "a@b.com", "hashed-pw", some "g-link", some "l-link", some "p-url",
   .USER, "tok", "nick", false⟩

/-- A UserCreate payload matching the example scenario of the spec. -/
def demoCreate : UserCreate :=
  { email := "a@b.com", nickname := none, first_name := none, last_name := none,
    bio := none, profile_picture_url := none, linkedin_profile_url := none,
    github_profile_url := none, role := UserRole.USER, password := "Secure*1234" }

/-- An effective UserUpdate payload with only name set. -/
def demoUpdate : UserUpdateV2 :=
  ⟨none, some "New Name", none, none, none, none, none⟩

/-- C5: validate_url passes None through unchanged, returns any string
    matching the URL regex unchanged, and fails with the validation error
    Invalid URL format on any non-matching string; matching is the re.match
    semantics RxM of the pattern urlRx. -/
theorem validate_url_spec :
    validate_url none = .ok none ∧
    (∀ s : String, reMatches urlRx s → validate_url (some s) = .ok (some s)) ∧
    (∀ s : String, ¬ reMatches urlRx s →
      validate_url (some s) = .error "Invalid URL format") := by
  refine ⟨rfl, ?_, ?_⟩
  · intro s hs
    have hm : urlMatch s = true := (urlMatch_iff_reMatches s).mpr hs
    simp [validate_url, hm]
  · intro s hs
    have hm : urlMatch s = false := by
      cases hc : urlMatch s
      · rfl
      · exact absurd ((urlMatch_iff_reMatches s).mp hc) hs
    simp [validate_url, hm]

/-- Witness for C5 at concrete inputs. -/
theorem validate_url_spec_witness :
    validate_url (some "https://example.com") = .ok (some "https://example.com") ∧
    validate_url (some "notaurl") = .error "Invalid URL format" :=
  ⟨validate_url_spec.2.1 "https://example.com"
      ((urlMatch_iff_reMatches "https://example.com").mp (by decide)),
   validate_url_spec.2.2 "notaurl"
      (fun h => absurd ((urlMatch_iff_reMatches "notaurl").mpr h) (by decide))⟩

/-- C6: under the first UserUpdate definition, the pre root validator
    check_at_least_one_value fails with the message At least one field must
    be provided for update when every submitted value is falsy, and passes
    the payload through when at least one value is truthy. -/
theorem check_at_least_one_value_spec (values : List (String × PyVal)) :
    ((∀ kv ∈ values, kv.2.truthy = false) →
      check_at_least_one_value values =
        .error "At least one field must be provided for update") ∧
    ((∃ kv ∈ values, kv.2.truthy = true) →
      check_at_least_one_value values = .ok values) := by
  constructor
  · intro h
    have ha : values.any (fun kv => kv.2.truthy) = false := by
      rw [List.any_eq_false]
      intro kv hkv
      simp [h kv hkv]
    simp [check_at_least_one_value, ha]
  · rintro ⟨kv, hm, ht⟩
    have ha : values.any (fun kv => kv.2.truthy) = true :=
      List.any_eq_true.mpr ⟨kv, hm, ht⟩
    simp [check_at_least_one_value, ha]

/-- Witness for C6 at concrete payloads: an all-falsy dict (a None and an
    empty string) is rejected, a dict with one truthy value passes. -/
theorem check_at_least_one_value_spec_witness :
    check_at_least_one_value [("email", PyVal.vnone), ("bio", PyVal.vstr "")] =
      .error "At least one field must be provided for update" ∧
    check_at_least_one_value [("email", PyVal.vstr "a@b.com")] =
      .ok [("email", PyVal.vstr "a@b.com")] :=
  ⟨(check_at_least_one_value_spec _).1 (by decide),
   (check_at_least_one_value_spec _).2
     ⟨("email", PyVal.vstr "a@b.com"), by decide, by decide⟩⟩

/-- C10: a serialized UserResponse exposes exactly the UserBase fields plus
    id, is_professional, created_at and updated_at, and never a password or
    hashed_password key. -/
theorem userResponse_fields (r : UserResponse) :
    r.dict.map Prod.fst =
      userBaseFieldNames ++ ["id", "is_professional", "created_at", "updated_at"] ∧
    "password" ∉ r.dict.map Prod.fst ∧
    "hashed_password" ∉ r.dict.map Prod.fst := by
  have hk : r.dict.map Prod.fst =
      ["email", "nickname", "first_name", "last_name", "bio",
       "profile_picture_url", "linkedin_profile_url", "github_profile_url",
       "role", "id", "is_professional", "created_at", "updated_at"] := rfl
  exact ⟨rfl, by rw [hk]; decide, by rw [hk]; decide⟩

/-- C2: create_user returns None and inserts nothing for every input: the
    User constructor reads user_data.github_link, an attribute the
    UserCreate schema does not declare, so the AttributeError is caught by
    the blanket handler before session.add is reached and the session is
    returned unchanged. -/
theorem create_user_always_none (hash_pw : String → String) (token nick : String)
    (next_id : Nat) (s : Session) (user_data : UserCreate) :
    create_user hash_pw token nick next_id s user_data = (s, none) := rfl

/-- C1 failing input: on the example payload of the spec, create_user does
    not store a defaulted, hashed, tokenized user; it returns None and
    leaves the store empty, because reading user_data.github_link raises
    AttributeError inside the try block. -/
theorem create_user_example_none :
    create_user (fun p => String.append "bcrypt-" p) "tok1" "nick1" 7
      ⟨[], false⟩ demoCreate = (⟨[], false⟩, none) := rfl

/-- C4: for every session, fetch outcome, user id and instance of the
    effective UserUpdate type, update_user_profile returns None and leaves
    the stored users unmodified: it reads user_update.github_link, which the
    effective UserUpdate does not declare, so the AttributeError is swallowed
    before any assignment or commit. -/
theorem update_user_profile_always_none (s : Session) (o : DbOutcome)
    (uid : Nat) (upd : UserUpdate) :
    (update_user_profile s o uid upd).2 = none ∧
    (update_user_profile s o uid upd).1.users = s.users := by
  cases o with
  | err m => exact ⟨rfl, rfl⟩
  | ok =>
    cases hf : s.users.find? (fun u => u.id == uid) with
    | none =>
      constructor <;>
        simp [update_user_profile, get_by_id, fetch_user, hf]
    | some u =>
      constructor <;>
        simp [update_user_profile, get_by_id, fetch_user, hf,
          UserUpdateV2.getattr, bind, Except.bind]

/-- C3 failing input: with a stored user of id 1 and an update carrying
    only a name, update_user_profile does not apply a truthy-guarded merge;
    it returns None and leaves the stored entity untouched. -/
theorem update_user_profile_example_none :
    update_user_profile ⟨[demoUser], false⟩ .ok 1 demoUpdate =
      (⟨[demoUser], false⟩, none) := by decide

/-- C7: the consumer-visible UserUpdate is the second definition: its
    construction with every field absent succeeds (no at-least-one-field
    check fires), and attribute access succeeds for exactly its seven
    declared field names. -/
theorem userUpdate_shadowing :
    (UserUpdate = UserUpdateV2) ∧
    (∀ emailOk httpUrlOk : String → Bool,
      UserUpdateV2.validate emailOk httpUrlOk none none none none none none none =
        .ok ⟨none, none, none, none, none, none, none⟩) ∧
    (∀ (u : UserUpdate) (n : String),
      (∃ v, u.getattr n = Except.ok v) ↔
        n ∈ ["email", "name", "bio", "location", "password",
             "linkedin_profile_url", "github_profile_url"]) := by
  refine ⟨rfl, fun emailOk httpUrlOk => rfl, fun u n => ?_⟩
  constructor
  · rintro ⟨v, hv⟩
    rw [UserUpdateV2.getattr.eq_def] at hv
    split at hv <;> simp_all
  · intro hn
    fin_cases hn <;> exact ⟨_, rfl⟩

/- Helper: find? after replacing the first element that matches. -/

theorem find?_replaceFirst_same (p : User → Bool) (f : User → User)
    (l : List User) (u : User) (h : l.find? p = some u) (hf : p (f u) = true) :
    (replaceFirst p f l).find? p = some (f u) := by
  induction l with
  | nil => simp at h
  | cons a rest ih =>
    cases hpa : p a with
    | true =>
      rw [List.find?_cons_of_pos _ hpa] at h
      obtain rfl : a = u := by injection h
      simp [replaceFirst, hpa, List.find?_cons_of_pos _ hf]
    | false =>
      rw [List.find?_cons_of_neg _ (by simp [hpa])] at h
      simp only [replaceFirst, hpa, Bool.false_eq_true, if_false]
      rw [List.find?_cons_of_neg _ (by simp [hpa])]
      exact ih h

theorem upgrade_user_to_pro_found (s : Session) (uid : Nat) (u : User)
    (hu : s.users.find? (fun w => w.id == uid) = some u) :
    upgrade_user_to_pro s .ok uid =
      ({ s with users :=
          replaceFirst (fun w => w.id == uid) (fun _ => { u with is_pro := true }) s.users },
       some { u with is_pro := true }) := by
  simp [upgrade_user_to_pro, get_by_id, fetch_user, hu]

/-- C8: when a stored user matches the id, upgrade_user_to_pro returns the
    refreshed entity with is_pro true and stores it; calling it again on the
    resulting session returns the same entity with is_pro still true and
    leaves it stored (idempotence); when no stored user matches, it returns
    None for every fetch outcome. -/
theorem upgrade_user_to_pro_spec (s : Session) (uid : Nat) :
    (∀ u, s.users.find? (fun w => w.id == uid) = some u →
      (upgrade_user_to_pro s .ok uid).2 = some { u with is_pro := true } ∧
      (upgrade_user_to_pro s .ok uid).1.users.find? (fun w => w.id == uid) =
        some { u with is_pro := true } ∧
      (upgrade_user_to_pro (upgrade_user_to_pro s .ok uid).1 .ok uid).2 =
        some { u with is_pro := true } ∧
      (upgrade_user_to_pro (upgrade_user_to_pro s .ok uid).1 .ok uid).1.users.find?
        (fun w => w.id == uid) = some { u with is_pro := true }) ∧
    ((∀ u ∈ s.users, u.id ≠ uid) → ∀ o, (upgrade_user_to_pro s o uid).2 = none) := by
  constructor
  · intro u hu
    have hp : (fun w => w.id == uid) ({ u with is_pro := true } : User) = true := by
      simpa using List.find?_some hu
    have h1 := upgrade_user_to_pro_found s uid u hu
    have hf1 : (upgrade_user_to_pro s .ok uid).1.users.find? (fun w => w.id == uid)
        = some { u with is_pro := true } := by
      rw [h1]
      exact find?_replaceFirst_same _ _ _ _ hu hp
    have h2 := upgrade_user_to_pro_found (upgrade_user_to_pro s .ok uid).1 uid
      { u with is_pro := true } hf1
    refine ⟨by rw [h1], hf1, by rw [h2], ?_⟩
    rw [h2]
    exact find?_replaceFirst_same _ _ _ _ hf1 hp
  · intro h o
    have hf : s.users.find? (fun w => w.id == uid) = none :=
      List.find?_eq_none.mpr (fun x hx => by simpa using h x hx)
    cases o with
    | ok => simp [upgrade_user_to_pro, get_by_id, fetch_user, hf]
    | err m => rfl

/-- Witness for C8 on a one-user store: upgrading user 1 stores and returns
    the flag set, doing it again keeps it set, and upgrading the missing
    user 2 yields None. -/
theorem upgrade_user_to_pro_spec_witness :
    (upgrade_user_to_pro ⟨[demoUser], false⟩ .ok 1).2 =
      some { demoUser with is_pro := true } ∧
    (upgrade_user_to_pro (upgrade_user_to_pro ⟨[demoUser], false⟩ .ok 1).1 .ok 1).2 =
      some { demoUser with is_pro := true } ∧
    (upgrade_user_to_pro ⟨[demoUser], false⟩ .ok 2).2 = none := by
  obtain ⟨h1, h2, h3, h4⟩ :=
    (upgrade_user_to_pro_spec ⟨[demoUser], false⟩ 1).1 demoUser (by decide)
  exact ⟨h1, h3, (upgrade_user_to_pro_spec ⟨[demoUser], false⟩ 2).2 (by decide) .ok⟩

/-- C9: get_by_id is total: on a driver error it returns None with the
    session rolled back; on a successful query, whenever some stored user
    has the requested primary key the call returns a stored user with that
    key, any returned user has that key and is stored, and when no stored
    user has the key the call returns None. -/
theorem get_by_id_spec (s : Session) (uid : Nat) :
    (∀ m, get_by_id s (.err m) uid = ({ s with rolledBack := true }, none)) ∧
    (∀ u, get_by_id s .ok uid = (s, some u) → u.id = uid ∧ u ∈ s.users) ∧
    ((∃ u ∈ s.users, u.id = uid) →
      ∃ u2, get_by_id s .ok uid = (s, some u2) ∧ u2.id = uid ∧ u2 ∈ s.users) ∧
    ((∀ u ∈ s.users, u.id ≠ uid) → get_by_id s .ok uid = (s, none)) := by
  refine ⟨fun m => rfl, ?_, ?_, ?_⟩
  · intro u h
    have hf : s.users.find? (fun w => w.id == uid) = some u := by
      have h2 := congrArg Prod.snd h
      simpa [get_by_id, fetch_user] using h2
    exact ⟨by simpa using List.find?_some hf, List.mem_of_find?_eq_some hf⟩
  · rintro ⟨u, hu, hid⟩
    have hsome : (s.users.find? (fun w => w.id == uid)).isSome :=
      List.find?_isSome.mpr ⟨u, hu, by simp [hid]⟩
    obtain ⟨u2, hf⟩ := Option.isSome_iff_exists.mp hsome
    refine ⟨u2, ?_, by simpa using List.find?_some hf, List.mem_of_find?_eq_some hf⟩
    simp [get_by_id, fetch_user, hf]
  · intro h
    have hf : s.users.find? (fun w => w.id == uid) = none :=
      List.find?_eq_none.mpr (fun x hx => by simpa using h x hx)
    simp [get_by_id, fetch_user, hf]

/-- Witness for C9 on a one-user store: a driver error rolls back and
    yields None, the query for id 1 returns a stored user carrying id 1,
    and id 2 yields None without an exception. -/
theorem get_by_id_spec_witness :
    get_by_id ⟨[demoUser], false⟩ (.err "db down") 1 =
      ({ users := [demoUser], rolledBack := true }, none) ∧
    (∃ u2, get_by_id ⟨[demoUser], false⟩ .ok 1 = (⟨[demoUser], false⟩, some u2) ∧
      u2.id = 1 ∧ u2 ∈ [demoUser]) ∧
    get_by_id ⟨[demoUser], false⟩ .ok 2 = (⟨[demoUser], false⟩, none) :=
  ⟨(get_by_id_spec ⟨[demoUser], false⟩ 1).1 "db down",
   (get_by_id_spec ⟨[demoUser], false⟩ 1).2.2.1 ⟨demoUser, by decide, by decide⟩,
   (get_by_id_spec ⟨[demoUser], false⟩ 2).2.2.2 (by decide)⟩

end UserApp
